import Mathlib

/-! Verification of `SABlock` (lavis/models/blip_models/selfattention.py).

Shallow embedding of the multi-head self-attention block `SABlock` and proofs
about its construction-time validation, its forward transformation on both
execution paths (the fused scaled-dot-product-attention fast path and the
manual einsum/softmax path), its dropout behaviour and its attention-weight
snapshot field.

Modelling conventions:
* floating-point tensors are modelled over `ℝ` (exact real semantics);
* the dropout rate is kept as a `ℚ` so the construction-time range check is
  decidable, and is coerced to `ℝ` where it enters the arithmetic;
* randomness of dropout is made explicit: each dropout site receives a
  Boolean keep-mask.  A unit is kept iff its mask bit is `true`; kept units
  are rescaled by `1/(1-rate)`.  When the rate is `0` the Bernoulli keep
  probability is `1`, so dropout is modelled as the identity in that case;
* Python exceptions are modelled by `Except`: both `ValueError`s raised in
  `__init__` map to `Err.invalidConfiguration`, the shape errors raised by
  `nn.Linear`/`Rearrange` inside `forward` map to `Err.shapeMismatch`, and
  Python's `ZeroDivisionError` (from `hidden_size % num_heads` with
  `num_heads = 0`) maps to `Err.zeroDivisionError`.
-/

open Finset

/-- The failure modes of the block, named as the specification names them,
plus Python's `ZeroDivisionError` which `%` raises on a zero modulus. -/
inductive Err where
  | invalidConfiguration : Err
  | shapeMismatch : Err
  | zeroDivisionError : Err
deriving DecidableEq, Repr

/-- The configuration of a constructed `SABlock`: the fields `__init__`
stores on `self` (`num_heads`, `dim_head`, `inner_dim`, `dropout_rate`,
`save_attn`, `use_flash_attention`), together with `hidden_size` (implicit in
the shapes of `self.qkv` and `self.out_proj`) and `qkv_bias` (implicit in
whether `self.qkv` owns a bias parameter).  The learned parameter values and
the `att_mat` snapshot are kept outside this structure (`Params`,
`SAState`). -/
structure SABlock where
  num_heads : ℕ
  dim_head : ℕ
  inner_dim : ℕ
  hidden_size : ℕ
  dropout_rate : ℚ
  qkv_bias : Bool
  save_attn : Bool
  use_flash_attention : Bool
deriving DecidableEq, Repr

/-- The head dimension `__init__` resolves:
`self.dim_head = hidden_size // num_heads if dim_head is None else dim_head`. -/
def resolvedDimHead (hidden_size num_heads : ℕ) (dim_head : Option ℕ) : ℕ :=
  match dim_head with
  | none => hidden_size / num_heads
  | some d => d

/-- Model of `SABlock.__init__`, with the failure sites in source order: the
dropout-rate range check runs first; then `hidden_size % num_heads` is
evaluated, which in Python raises `ZeroDivisionError` when `num_heads = 0`;
then the divisibility check, which the source performs unconditionally (it
does not look at `dim_head`).  After the checks, the field assignments and
module allocations run; the only one that can raise is
`self.scale = self.dim_head ** -0.5`, which in Python raises
`ZeroDivisionError` when the resolved `dim_head` is `0` (integer
`0 ** -0.5` is a zero division; the `nn.Linear`/`Rearrange`/`nn.Dropout`
constructions before it accept zero sizes and an already-validated rate).
`inner_dim = dim_head * num_heads`; `use_flash_attention` starts `False`. -/
def SABlock.init (hidden_size num_heads : ℕ) (dropout_rate : ℚ)
    (qkv_bias save_attn : Bool) (dim_head : Option ℕ) : Except Err SABlock :=
  if ¬ (0 ≤ dropout_rate ∧ dropout_rate ≤ 1) then
    .error .invalidConfiguration
  else if num_heads = 0 then
    .error .zeroDivisionError
  else if hidden_size % num_heads ≠ 0 then
    .error .invalidConfiguration
  else
    let d := resolvedDimHead hidden_size num_heads dim_head
    if d = 0 then
    .error .zeroDivisionError
    else
    .ok { num_heads := num_heads
          dim_head := d
          inner_dim := d * num_heads
          hidden_size := hidden_size
          dropout_rate := dropout_rate
          qkv_bias := qkv_bias
          save_attn := save_attn
          use_flash_attention := false }

/-- A configuration that construction can produce: positive head count,
divisible hidden size, dropout rate in `[0,1]`. -/
def SABlock.wellFormed (blk : SABlock) : Prop :=
  0 < blk.num_heads ∧ blk.hidden_size % blk.num_heads = 0 ∧
    0 ≤ blk.dropout_rate ∧ blk.dropout_rate ≤ 1

instance (blk : SABlock) : Decidable blk.wellFormed := by
  unfold SABlock.wellFormed; infer_instance

/-- A dense real tensor: a shape together with the values, read through a
multi-index. -/
structure Tensor where
  shape : List ℕ
  data : List ℕ → ℝ

/-- Rank-3 indexing helper. -/
def Tensor.at3 (t : Tensor) (i j k : ℕ) : ℝ := t.data [i, j, k]

noncomputable section

/-- Model of `torch.Tensor()`: the fresh empty tensor (shape `[0]`, no elements) that
`__init__` stores in `self.att_mat`. -/
def Tensor.empty : Tensor := ⟨[0], fun _ => 0⟩

/-- The learned parameter values of the block: `self.qkv` (weight
`[3*inner_dim, hidden_size]`, optional bias `[3*inner_dim]`) and
`self.out_proj` (weight `[hidden_size, inner_dim]`, bias `[hidden_size]`),
read as functions of their indices.  Their (random) initialization is not
part of the functional contract, so they are inputs of the model. -/
structure Params where
  qkv_weight : ℕ → ℕ → ℝ
  qkv_bias : ℕ → ℝ
  out_weight : ℕ → ℕ → ℝ
  out_bias : ℕ → ℝ

/-- The Bernoulli keep-draws consumed by the three dropout sites of one
forward call: `self.drop_weights` (indexed batch, head, query, key),
`self.drop_output` (indexed batch, position, unit), and the dropout inside
`F.scaled_dot_product_attention` (indexed batch, head, query, key). -/
structure Masks where
  weights_keep : ℕ → ℕ → ℕ → ℕ → Bool
  output_keep : ℕ → ℕ → ℕ → Bool
  sdpa_keep : ℕ → ℕ → ℕ → ℕ → Bool

/-- One unit of `nn.Dropout` with rate `rate`: the identity in eval mode
(`training = false`); in training mode with `rate ≠ 0` the unit is kept iff
its Bernoulli(1-rate) draw `keep` is true, survivors rescaled by
`1/(1-rate)`.  With `rate = 0` the draw is almost surely `true`, so the
stage is the identity there as well. -/
def dropKeep (training : Bool) (rate : ℚ) (keep : Bool) (v : ℝ) : ℝ :=
  if training = true ∧ rate ≠ 0 then
    (if keep then v / (1 - (rate : ℝ)) else 0)
  else v

/-- One unit of the dropout applied inside `F.scaled_dot_product_attention`:
the functional primitive applies its `dropout_p` parameter irrespective of
the enclosing module's train/eval mode. -/
def sdpaDropKeep (rate : ℚ) (keep : Bool) (v : ℝ) : ℝ :=
  if rate ≠ 0 then (if keep then v / (1 - (rate : ℝ)) else 0) else v

/-- Model of `self.qkv(x)`: the packed affine map `hidden_size → 3*inner_dim`
(`nn.Linear` convention `x Wᵀ + b`), with the bias term present iff the
block was built with `qkv_bias`. -/
def qkvOut (blk : SABlock) (p : Params) (x : Tensor) (i j f : ℕ) : ℝ :=
  (∑ e ∈ Finset.range blk.hidden_size, p.qkv_weight f e * x.at3 i j e) +
    (if blk.qkv_bias then p.qkv_bias f else 0)

/-- Model of `self.input_rearrange` = `Rearrange("b h (qkv l d) -> qkv b l h d")`
with `qkv=3, l=num_heads`; chunk 0 of the packed feature axis: the query
tensor, laid out `[batch, heads, seq, dim_head]`. -/
def qProj (blk : SABlock) (p : Params) (x : Tensor) (i h j d : ℕ) : ℝ :=
  qkvOut blk p x i j (h * blk.dim_head + d)

/-- Chunk 1 of the packed feature axis: the key tensor. -/
def kProj (blk : SABlock) (p : Params) (x : Tensor) (i h j d : ℕ) : ℝ :=
  qkvOut blk p x i j (blk.inner_dim + (h * blk.dim_head + d))

/-- Chunk 2 of the packed feature axis: the value tensor. -/
def vProj (blk : SABlock) (p : Params) (x : Tensor) (i h j d : ℕ) : ℝ :=
  qkvOut blk p x i j (2 * blk.inner_dim + (h * blk.dim_head + d))

/-- Model of `self.scale = self.dim_head ** -0.5`. -/
def SABlock.scale (blk : SABlock) : ℝ := (Real.sqrt blk.dim_head)⁻¹

/-- Manual path raw scores:
`torch.einsum("blxd,blyd->blxy", q, k) * self.scale`. -/
def attScores (blk : SABlock) (p : Params) (x : Tensor) (i h a y : ℕ) : ℝ :=
  (∑ d ∈ Finset.range blk.dim_head,
    qProj blk p x i h a d * kProj blk p x i h y d) * blk.scale

/-- Manual path attention weights: `att_mat.softmax(dim=-1)` over the key
axis of length `s`.  (Over `ℝ` the max-subtracted numerically-stable softmax
equals plain `exp/Σ exp`.) -/
def attWeights (blk : SABlock) (p : Params) (x : Tensor) (s i h a y : ℕ) : ℝ :=
  Real.exp (attScores blk p x i h a y) /
    ∑ y' ∈ Finset.range s, Real.exp (attScores blk p x i h a y')

/-- Modelled library primitive `F.scaled_dot_product_attention` (PyTorch,
not code of this repository), per its documented semantics: softmax over the
key axis (length `s`) of `Q Kᵗ · scale`, elementwise dropout with
probability `dropout_p` applied to the weights, then contraction with `V`.
`dimHead` is the contraction length of the dot products. -/
def scaledDotProductAttention (s dimHead : ℕ) (scale : ℝ) (dropout_p : ℚ)
    (keep : ℕ → ℕ → ℕ → ℕ → Bool) (q k v : ℕ → ℕ → ℕ → ℕ → ℝ)
    (i h a d : ℕ) : ℝ :=
  ∑ y ∈ Finset.range s,
    sdpaDropKeep dropout_p (keep i h a y)
      (Real.exp ((∑ e ∈ Finset.range dimHead, q i h a e * k i h y e) * scale) /
        ∑ y' ∈ Finset.range s,
          Real.exp ((∑ e ∈ Finset.range dimHead, q i h a e * k i h y' e) * scale)) *
      v i h y d

/-- The per-head attention output `[batch, heads, seq, dim_head]`: the fast
path hands Q, K, V, the precomputed scale and `dropout_p = self.dropout_rate`
(unconditionally, with no train/eval guard) to the fused primitive; the
manual path applies `self.drop_weights` to the softmaxed scores and
contracts with V (`torch.einsum("bhxy,bhyd->bhxd", att_mat, v)`). -/
def headsOut (blk : SABlock) (p : Params) (m : Masks) (training : Bool)
    (x : Tensor) (s i h a d : ℕ) : ℝ :=
  if blk.use_flash_attention then
    scaledDotProductAttention s blk.dim_head blk.scale blk.dropout_rate
      m.sdpa_keep (qProj blk p x) (kProj blk p x) (vProj blk p x) i h a d
  else
    ∑ y ∈ Finset.range s,
      dropKeep training blk.dropout_rate (m.weights_keep i h a y)
        (attWeights blk p x s i h a y) *
      vProj blk p x i h y d

/-- Model of `self.out_rearrange` (`"b h l d -> b l (h d)"`: heads concatenated
head-major along the feature axis, `f = h*dim_head + d`) followed by
`self.out_proj`, the affine map `inner_dim → hidden_size`. -/
def outUnits (blk : SABlock) (p : Params) (m : Masks) (training : Bool)
    (x : Tensor) (s i j g : ℕ) : ℝ :=
  (∑ f ∈ Finset.range blk.inner_dim,
    p.out_weight g f *
      headsOut blk p m training x s i (f / blk.dim_head) j (f % blk.dim_head)) +
    p.out_bias g

/-- Model of the final stage `self.drop_output`: one unit of the returned output. -/
def forwardData (blk : SABlock) (p : Params) (m : Masks) (training : Bool)
    (x : Tensor) (s i j g : ℕ) : ℝ :=
  dropKeep training blk.dropout_rate (m.output_keep i j g)
    (outUnits blk p m training x s i j g)

/-- Model of `SABlock.forward`.  The source performs no explicit validation; the
conditions under which its tensor-library calls raise — `self.qkv`'s matmul
needs the last axis of `x` equal to `hidden_size`, `self.input_rearrange`
needs rank exactly 3 — are modelled as the spec's `ShapeMismatch`.  A
well-shaped input `[batch, seqLen, hidden_size]` produces the
`[batch, seqLen, hidden_size]` output of the pipeline
`qkv → rearrange → attention (fast or manual) → rearrange → out_proj →
drop_output`. -/
def SABlock.forward (blk : SABlock) (p : Params) (m : Masks)
    (training : Bool) (x : Tensor) : Except Err Tensor :=
  match x.shape with
  | [b, s, e] =>
    if e = blk.hidden_size then
      .ok ⟨[b, s, blk.hidden_size],
        fun idx => match idx with
          | [i, j, g] => forwardData blk p m training x s i j g
          | _ => 0⟩
    else .error .shapeMismatch
  | _ => .error .shapeMismatch

/-- The full mutable state of a block instance: the configuration plus the
`self.att_mat` snapshot slot. -/
structure SAState where
  blk : SABlock
  att_mat : Tensor

/-- Construction at the state level: `__init__` sets
`self.att_mat = torch.Tensor()`, the empty tensor. -/
def SABlock.initState (hidden_size num_heads : ℕ) (dropout_rate : ℚ)
    (qkv_bias save_attn : Bool) (dim_head : Option ℕ) : Except Err SAState :=
  (SABlock.init hidden_size num_heads dropout_rate qkv_bias save_attn
    dim_head).map fun blk => ⟨blk, Tensor.empty⟩

/-- Model of `forward` at the state level: the body of the source's `forward`
contains no assignment to any `self` field — in particular none to
`self.att_mat` — so the state comes back unchanged next to the output. -/
def SAState.forward (st : SAState) (p : Params) (m : Masks)
    (training : Bool) (x : Tensor) : Except Err (Tensor × SAState) :=
  (st.blk.forward p m training x).map fun t => (t, st)

/-- Test fixture: the one-unit configuration
(`hidden_size=1, num_heads=1, dim_head=1`), manual path, rate 0. -/
def oneBlk : SABlock :=
  { num_heads := 1
    dim_head := 1
    inner_dim := 1
    hidden_size := 1
    dropout_rate := 0
    qkv_bias := false
    save_attn := false
    use_flash_attention := false }

/-- Test fixture: all projection weights `1`, all biases `0`. -/
def onesParams : Params := ⟨fun _ _ => 1, fun _ => 0, fun _ _ => 1, fun _ => 0⟩

/-- Test fixture: every dropout draw keeps its unit. -/
def keepAll : Masks := ⟨fun _ _ _ _ => true, fun _ _ _ => true, fun _ _ _ _ => true⟩

/-- Test fixture: the all-ones input of shape `[1, 1, 1]`. -/
def onesInput : Tensor := ⟨[1, 1, 1], fun _ => 1⟩

end

/-- C2, the claim as stated, is false: the source checks
`hidden_size % num_heads != 0` unconditionally, so supplying `dim_head`
explicitly does not bypass the divisibility check.  Concretely,
`SABlock(hidden_size=10, num_heads=3, dim_head=4)` raises. -/
theorem init_fails_despite_explicit_dim_head :
    SABlock.init 10 3 0 false false (some 4) = .error .invalidConfiguration := by
  rfl

/-- C2 (amended): given a positive head count and an in-range dropout rate,
construction fails with `InvalidConfiguration` iff `hidden_size` is not
divisible by `num_heads`, regardless of whether `dim_head` is supplied (in
particular `hidden_size=10, num_heads=3` fails with no `dim_head`); and when
divisibility holds, construction succeeds provided the resolved head
dimension is nonzero (a zero one instead raises `ZeroDivisionError` from
`self.dim_head ** -0.5`, which is not the configuration-validation
error). -/
theorem init_divisibility_check_unconditional (hidden_size num_heads : ℕ)
    (dropout_rate : ℚ) (qkv_bias save_attn : Bool) (dim_head : Option ℕ)
    (hheads : 0 < num_heads)
    (hrate : 0 ≤ dropout_rate ∧ dropout_rate ≤ 1) :
    (SABlock.init hidden_size num_heads dropout_rate qkv_bias save_attn dim_head
        = .error .invalidConfiguration ↔ hidden_size % num_heads ≠ 0) ∧
    (hidden_size % num_heads = 0 →
      resolvedDimHead hidden_size num_heads dim_head ≠ 0 →
      (SABlock.init hidden_size num_heads dropout_rate qkv_bias save_attn dim_head).isOk
        = true) := by
  have hne := Nat.pos_iff_ne_zero.mp hheads
  by_cases hdvd : hidden_size % num_heads = 0 <;>
    by_cases hdim : resolvedDimHead hidden_size num_heads dim_head = 0 <;>
      simp [SABlock.init, hrate, hne, hdvd, hdim, Except.isOk, Except.toBool]

/-- Witness for C2's amended theorem at `hidden_size=10, num_heads=3`,
no `dim_head`. -/
theorem init_divisibility_check_unconditional_witness :
    (SABlock.init 10 3 0 false false none = .error .invalidConfiguration ↔
      10 % 3 ≠ 0) ∧
    (10 % 3 = 0 → resolvedDimHead 10 3 none ≠ 0 →
      (SABlock.init 10 3 0 false false none).isOk = true) :=
  init_divisibility_check_unconditional 10 3 0 false false none
    (by decide) ⟨by simp, by simp⟩

/-- C8: the dropout-rate range check is the first check in `__init__`: any
rate outside `[0,1]` fails with `InvalidConfiguration`, and any rate inside
`[0,1]` passes it, so construction succeeds whenever the dimensions are also
valid — positive head count, divisible hidden size, and a nonzero resolved
head dimension (a zero one would raise `ZeroDivisionError` from
`self.dim_head ** -0.5` after the validations). -/
theorem init_dropout_range_check (hidden_size num_heads : ℕ)
    (rate_in rate_out : ℚ) (qkv_bias save_attn : Bool) (dim_head : Option ℕ)
    (hout : ¬ (0 ≤ rate_out ∧ rate_out ≤ 1))
    (hin : 0 ≤ rate_in ∧ rate_in ≤ 1)
    (hheads : 0 < num_heads) (hdvd : hidden_size % num_heads = 0)
    (hdim : resolvedDimHead hidden_size num_heads dim_head ≠ 0) :
    SABlock.init hidden_size num_heads rate_out qkv_bias save_attn dim_head
      = .error .invalidConfiguration ∧
    (SABlock.init hidden_size num_heads rate_in qkv_bias save_attn dim_head).isOk
      = true := by
  constructor
  · simp [SABlock.init, hout]
  · simp [SABlock.init, Except.isOk, Except.toBool, hin,
      Nat.pos_iff_ne_zero.mp hheads, hdvd, hdim]

/-- Witness for C8 at the spec's examples: `dropout_rate=1.5` fails,
`dropout_rate=0.5` succeeds (with `hidden_size=8, num_heads=2`). -/
theorem init_dropout_range_check_witness :
    SABlock.init 8 2 (3/2) false false none = .error .invalidConfiguration ∧
    (SABlock.init 8 2 (1/2) false false none).isOk = true :=
  init_dropout_range_check 8 2 (1/2) (3/2) false false none
    (by norm_num) ⟨by norm_num, by norm_num⟩ (by decide) (by decide) (by decide)

/-- C10: with `num_heads = 0`, the expression `hidden_size % num_heads`
raises Python's `ZeroDivisionError`, not the configuration-validation error —
but only after the dropout-rate check, which runs first, so an out-of-range
dropout rate masks the division failure with `InvalidConfiguration`. -/
theorem init_zero_heads_division_error (hidden_size : ℕ)
    (rate_in rate_out : ℚ) (qkv_bias save_attn : Bool) (dim_head : Option ℕ)
    (hin : 0 ≤ rate_in ∧ rate_in ≤ 1)
    (hout : ¬ (0 ≤ rate_out ∧ rate_out ≤ 1)) :
    SABlock.init hidden_size 0 rate_in qkv_bias save_attn dim_head
      = .error .zeroDivisionError ∧
    SABlock.init hidden_size 0 rate_out qkv_bias save_attn dim_head
      = .error .invalidConfiguration := by
  constructor
  · simp [SABlock.init, hin]
  · simp [SABlock.init, hout]

/-- Witness for C10 at `hidden_size=10`, rates `0` (valid) and `2`
(invalid). -/
theorem init_zero_heads_division_error_witness :
    SABlock.init 10 0 0 false false none = .error .zeroDivisionError ∧
    SABlock.init 10 0 2 false false none = .error .invalidConfiguration :=
  init_zero_heads_division_error 10 0 2 false false none
    ⟨by simp, by simp⟩ (by simp)

/-- C7: on the manual path, for every (batch, head, query-position) triple
with the query position in range, the post-softmax pre-dropout attention
weights (`attWeights`, the tensor `forward` feeds into `drop_weights`) sum
to 1 across the key axis. -/
theorem attention_weights_sum_to_one (blk : SABlock) (p : Params) (x : Tensor)
    (s i h a : ℕ) (ha : a < s) :
    ∑ y ∈ Finset.range s, attWeights blk p x s i h a y = 1 := by
  unfold attWeights
  rw [← Finset.sum_div]
  refine div_self (ne_of_gt ?_)
  exact Finset.sum_pos (fun _ _ => Real.exp_pos _) ⟨a, Finset.mem_range.mpr ha⟩

/-- Witness for C7 on the one-unit fixture with `seqLen = 1`. -/
theorem attention_weights_sum_to_one_witness :
    ∑ y ∈ Finset.range 1, attWeights oneBlk onesParams onesInput 1 0 0 0 y = 1 :=
  attention_weights_sum_to_one oneBlk onesParams onesInput 1 0 0 0 (by decide)

/-- C5: on a valid configuration, for every input of shape
`[batch, seqLen, hiddenSize]` with positive batch and seqLen, `forward`
succeeds and its output tensor has exactly the input's shape, on both
execution paths (the statement holds for either value of
`use_flash_attention`, which `forward` reads from `blk`). -/
theorem forward_preserves_shape (blk : SABlock) (p : Params) (m : Masks)
    (training : Bool) (b s : ℕ) (x : Tensor)
    (hb : 0 < b) (hs : 0 < s) (hwf : blk.wellFormed)
    (hshape : x.shape = [b, s, blk.hidden_size]) :
    (blk.forward p m training x).map Tensor.shape = .ok x.shape := by
  rcases x with ⟨sh, dat⟩
  simp only at hshape
  subst hshape
  simp [SABlock.forward, Except.map]

/-- Witness for C5 on the one-unit fixture (`batch = seqLen = 1`). -/
theorem forward_preserves_shape_witness :
    (oneBlk.forward onesParams keepAll false onesInput).map Tensor.shape
      = .ok onesInput.shape :=
  forward_preserves_shape oneBlk onesParams keepAll false 1 1 onesInput
    (by decide) (by decide) (by decide) rfl

/-- C9: `forward` fails with `ShapeMismatch` exactly when the input's rank
is not 3 or its last axis differs from `hidden_size` (these are the
conditions under which `self.qkv` resp. `self.input_rearrange` raise), and
on every well-shaped input it succeeds — there is no other runtime failure
mode. -/
theorem forward_shape_validation (blk : SABlock) (p : Params) (m : Masks)
    (training : Bool) (x : Tensor) :
    (¬ (x.shape.length = 3 ∧ x.shape.getLastD 0 = blk.hidden_size) →
      blk.forward p m training x = .error .shapeMismatch) ∧
    ((x.shape.length = 3 ∧ x.shape.getLastD 0 = blk.hidden_size) →
      (blk.forward p m training x).isOk = true) := by
  constructor
  · intro hbad
    rcases x with ⟨sh, dat⟩
    simp only at hbad
    rcases sh with _ | ⟨a, _ | ⟨b, _ | ⟨c, _ | ⟨d, rest⟩⟩⟩⟩ <;>
      simp_all [SABlock.forward, List.getLastD]
  · intro hgood
    rcases x with ⟨sh, dat⟩
    simp only at hgood
    rcases sh with _ | ⟨a, _ | ⟨b, _ | ⟨c, _ | ⟨d, rest⟩⟩⟩⟩ <;>
      simp_all [SABlock.forward, List.getLastD, Except.isOk, Except.toBool]

/-- Witness for C9: the spec's example shape `[1,3,7]` against
`hidden_size = 8` fails, while `[1,3,8]` succeeds, on a freshly constructed
`SABlock(hidden_size=8, num_heads=2)`. -/
theorem forward_shape_validation_witness :
    (¬ ((⟨[1, 3, 7], fun _ => 1⟩ : Tensor).shape.length = 3 ∧
        (⟨[1, 3, 7], fun _ => 1⟩ : Tensor).shape.getLastD 0
          = (⟨2, 4, 8, 8, 0, false, false, false⟩ : SABlock).hidden_size) →
      (⟨2, 4, 8, 8, 0, false, false, false⟩ : SABlock).forward onesParams keepAll
          false ⟨[1, 3, 7], fun _ => 1⟩ = .error .shapeMismatch) ∧
    (((⟨[1, 3, 7], fun _ => 1⟩ : Tensor).shape.length = 3 ∧
        (⟨[1, 3, 7], fun _ => 1⟩ : Tensor).shape.getLastD 0
          = (⟨2, 4, 8, 8, 0, false, false, false⟩ : SABlock).hidden_size) →
      ((⟨2, 4, 8, 8, 0, false, false, false⟩ : SABlock).forward onesParams keepAll
          false ⟨[1, 3, 7], fun _ => 1⟩).isOk = true) :=
  forward_shape_validation ⟨2, 4, 8, 8, 0, false, false, false⟩ onesParams keepAll
    false ⟨[1, 3, 7], fun _ => 1⟩

/-- Eval mode makes `nn.Dropout` the identity. -/
theorem dropKeep_eval (rate : ℚ) (keep : Bool) (v : ℝ) :
    dropKeep false rate keep v = v := by
  simp [dropKeep]

/-- Rate 0 makes `nn.Dropout` the identity (the Bernoulli keep draw is
almost surely `true` and the rescale factor is 1). -/
theorem dropKeep_zero_rate (training : Bool) (keep : Bool) (v : ℝ) :
    dropKeep training 0 keep v = v := by
  simp [dropKeep]

/-- The dropout inside `F.scaled_dot_product_attention` with `dropout_p = 0`
is the identity. -/
theorem sdpaDropKeep_zero_rate (keep : Bool) (v : ℝ) :
    sdpaDropKeep 0 keep v = v := by
  simp [sdpaDropKeep]

/-- Congruence helper: two forward calls whose blocks share `hidden_size`
and whose per-unit outputs agree produce identical results. -/
theorem forward_congr_data (blk₁ blk₂ : SABlock) (p₁ p₂ : Params)
    (m₁ m₂ : Masks) (tr₁ tr₂ : Bool) (x : Tensor)
    (hhid : blk₁.hidden_size = blk₂.hidden_size)
    (hd : ∀ s i j g, forwardData blk₁ p₁ m₁ tr₁ x s i j g
      = forwardData blk₂ p₂ m₂ tr₂ x s i j g) :
    blk₁.forward p₁ m₁ tr₁ x = blk₂.forward p₂ m₂ tr₂ x := by
  rcases x with ⟨sh, dat⟩
  rcases sh with _ | ⟨b, _ | ⟨s', _ | ⟨e, _ | ⟨w, rest⟩⟩⟩⟩ <;>
    simp only [SABlock.forward]
  rw [hhid]
  by_cases he : e = blk₂.hidden_size
  · simp only [if_pos he]
    refine congrArg Except.ok (congrArg (Tensor.mk _) (funext fun idx => ?_))
    rcases idx with _ | ⟨i, _ | ⟨j, _ | ⟨g, _ | ⟨w', r'⟩⟩⟩⟩ <;>
      first
        | rfl
        | exact hd s' i j g
  · simp only [if_neg he]

/-- C3: with `dropout_rate = 0` and the block in eval mode, the fast path
(`use_flash_attention = True`, fused `F.scaled_dot_product_attention`) and
the manual path (`use_flash_attention = False`, einsum/softmax/einsum)
compute identical forward outputs for every parameter setting, every
dropout draw and every input. -/
theorem fast_path_eq_manual_path (blk : SABlock) (p : Params) (m : Masks)
    (x : Tensor) (h0 : blk.dropout_rate = 0) :
    SABlock.forward { blk with use_flash_attention := true } p m false x
      = SABlock.forward { blk with use_flash_attention := false } p m false x := by
  refine forward_congr_data { blk with use_flash_attention := true }
    { blk with use_flash_attention := false } p p m m false false x rfl
    fun s i j g => ?_
  simp [forwardData, outUnits, headsOut, scaledDotProductAttention, attWeights,
    attScores, qProj, kProj, vProj, qkvOut, SABlock.scale, h0, dropKeep_eval,
    dropKeep_zero_rate, sdpaDropKeep_zero_rate]

/-- Witness for C3 on the one-unit fixture (rate 0, eval mode). -/
theorem fast_path_eq_manual_path_witness :
    SABlock.forward { oneBlk with use_flash_attention := true } onesParams
        keepAll false onesInput
      = SABlock.forward { oneBlk with use_flash_attention := false } onesParams
        keepAll false onesInput :=
  fast_path_eq_manual_path oneBlk onesParams keepAll onesInput rfl

/-- C6: with `dropout_rate = 0`, `forward` is a deterministic function of
the parameters and the input: its result does not depend on the dropout
draws, the only source of randomness, so two calls on identical input and
parameters return identical outputs (on either path and in either mode). -/
theorem forward_deterministic (blk : SABlock) (p : Params) (m₁ m₂ : Masks)
    (training : Bool) (x : Tensor) (h0 : blk.dropout_rate = 0) :
    blk.forward p m₁ training x = blk.forward p m₂ training x := by
  refine forward_congr_data blk blk p p m₁ m₂ training training x rfl
    fun s i j g => ?_
  simp [forwardData, outUnits, headsOut, scaledDotProductAttention, h0,
    dropKeep_zero_rate, sdpaDropKeep_zero_rate]

/-- Witness for C6 on the one-unit fixture: the all-keep and the all-drop
draws give the same output when the rate is 0. -/
theorem forward_deterministic_witness :
    oneBlk.forward onesParams keepAll false onesInput
      = oneBlk.forward onesParams ⟨fun _ _ _ _ => false, fun _ _ _ => false,
          fun _ _ _ _ => false⟩ false onesInput :=
  forward_deterministic oneBlk onesParams keepAll
    ⟨fun _ _ _ _ => false, fun _ _ _ => false, fun _ _ _ _ => false⟩
    false onesInput rfl

/-- C1 is violated by the code: the body of `forward` contains no
assignment to `self.att_mat` (the `if self.save_attn: self.att_mat = ...`
step is absent), so after constructing with `save_attn=True` and completing
a forward call on the manual path, the retained snapshot still has the empty
tensor's shape `[0]` instead of
`[batch, numHeads, seqLen, seqLen] = [1, 1, 1, 1]`. -/
theorem snapshot_never_written :
    ((SABlock.initState 1 1 0 false true none).bind
        fun st => st.forward onesParams keepAll false onesInput).map
      (fun r => r.2.att_mat.shape) = .ok [0] ∧
    ([0] : List ℕ) ≠ [1, 1, 1, 1] := by
  constructor
  · simp [SABlock.initState, SABlock.init, resolvedDimHead, SAState.forward,
      SABlock.forward, Tensor.empty, onesInput, Except.map, Except.bind]
  · decide

/-- C4 is violated on the fast path: the source passes
`dropout_p=self.dropout_rate` to `F.scaled_dot_product_attention` with no
train/eval guard, so in eval mode the fast path still applies
attention-weight dropout.  On the one-unit fixture in eval mode with rate
`1/2` and an all-keep draw, the fast path outputs `2` where the same
computation with rate `0` outputs `1` (the kept weight is rescaled by
`1/(1-1/2)`). -/
theorem flash_dropout_active_in_eval :
    (SABlock.forward { oneBlk with use_flash_attention := true, dropout_rate := 1/2 }
        onesParams keepAll false onesInput).map (fun t => t.data [0, 0, 0])
      = .ok 2 ∧
    (SABlock.forward { oneBlk with use_flash_attention := true, dropout_rate := 0 }
        onesParams keepAll false onesInput).map (fun t => t.data [0, 0, 0])
      = .ok 1 ∧
    (2 : ℝ) ≠ 1 := by
  refine ⟨?_, ?_, by norm_num⟩
  · simp [SABlock.forward, forwardData, outUnits, headsOut,
      scaledDotProductAttention, sdpaDropKeep, dropKeep, qProj, kProj, vProj,
      qkvOut, Tensor.at3, SABlock.scale, oneBlk, onesParams, keepAll, onesInput,
      Except.map, div_self (Real.exp_ne_zero 1)]
    norm_num
  · simp [SABlock.forward, forwardData, outUnits, headsOut,
      scaledDotProductAttention, sdpaDropKeep, dropKeep, qProj, kProj, vProj,
      qkvOut, Tensor.at3, SABlock.scale, oneBlk, onesParams, keepAll, onesInput,
      Except.map, div_self (Real.exp_ne_zero 1)]
